import Mathlib

/-!
Verification of `src/praw/util/cache.py`: the `cachedproperty` descriptor.

Shallow embedding. An object's observable state is its instance dictionary
(`__dict__`), modelled as an association list from attribute names to values.
A wrapped computation (the decorated method) is modelled as a function from
the object's state to `Except E V`, together with its declared `__name__`,
its `__doc__` and a textual representation (what `str(func)` prints).

The descriptor methods are translated directly:
  * `cachedproperty.init`  models `__init__` (cache.py lines 22-28),
  * `cachedproperty.call`  models `__call__` (lines 31-32, body `pass`),
  * `cachedproperty.get`   models `__get__`  (lines 34-45),
  * `cachedproperty.reprS` models `__repr__` (lines 47-49).
Operations that may run the wrapped computation also return the number of
times they invoked it, so single-evaluation claims are statable.

`readAttr` models CPython's attribute lookup for `instance.name` when the
class binds a non-data descriptor (one defining only `__get__`) under
`name`: the instance dictionary is consulted first, and only on a miss is
the descriptor's `__get__` entered.  This precedence is the mechanism the
source's docstring relies on for caching.
-/

namespace Praw

/-- An object's instance dictionary: `__dict__`, a mutable mapping from
attribute names to values of type `V`. -/
abbrev Dict (V : Type) := List (String × V)

/-- Look an attribute name up in an instance dictionary. -/
def Dict.find {V : Type} : Dict V → String → Option V
  | [], _ => none
  | (k, v) :: rest, a => if k = a then some v else Dict.find rest a

/-- Write `d[a] = v`: overwrite the first binding of `a`, or append a new
binding when none exists. -/
def Dict.set {V : Type} : Dict V → String → V → Dict V
  | [], a, v => [(a, v)]
  | (k, w) :: rest, a, v =>
    if k = a then (a, v) :: rest else (k, w) :: Dict.set rest a v

/-- Delete every binding of `a` from the dictionary (`delattr` / `del
obj.__dict__[a]`). -/
def Dict.remove {V : Type} : Dict V → String → Dict V
  | [], _ => []
  | (k, w) :: rest, a =>
    if k = a then Dict.remove rest a else (k, w) :: Dict.remove rest a

/-- The wrapped computation: the function passed to `cachedproperty`.  `run`
is its body, acting on the owning object's state; `name` is its declared
`__name__`, `doc` its `__doc__`, and `reprS` the text `str(func)` yields. -/
structure Computation (V E : Type) where
  name : String
  doc : Option String
  reprS : String
  run : Dict V → Except E V

/-- The descriptor object built by `cachedproperty(func, doc)`: it stores
the computation in both `self.func` and `self.__wrapped__` and keeps a
`__doc__` field (cache.py lines 22-28). -/
structure cachedproperty (V E : Type) where
  func : Computation V E
  wrapped : Computation V E
  doc : Option String

/-- Model of `cachedproperty.__init__` (cache.py lines 22-28):
`self.func = self.__wrapped__ = func`; if `doc is None` it is replaced by
`func.__doc__`; then `self.__doc__ = doc`. -/
def cachedproperty.init {V E : Type} (func : Computation V E)
    (doc : Option String) : cachedproperty V E :=
  { func := func
    wrapped := func
    doc := match doc with
           | none => func.doc
           | some s => some s }

/-- Model of `cachedproperty.__call__` (cache.py lines 31-32): the body is
`pass`, so the call returns `None` whatever the arguments are, and the
wrapped computation is invoked zero times.  The result is the returned
value paired with the invocation count. -/
def cachedproperty.call {V E : Type} (_self : cachedproperty V E)
    (_args : List V) (_kwargs : List (String × V)) : Option V × Nat :=
  (none, 0)

/-- What `__get__` can return: the descriptor itself (type-level access),
a computed value, or a propagated error from the computation. -/
inductive GetResult (V E : Type) where
  | descriptor (w : cachedproperty V E)
  | val (v : V)
  | exn (e : E)

/-- Model of `cachedproperty.__get__` (cache.py lines 34-45).  `obj` is the
bound instance's state, or `none` for access through the type.  With no
instance, `self` is returned.  Otherwise `self.func(obj)` is evaluated
first; on success the value is stored in `obj.__dict__` under
`self.func.__name__` and returned, and on failure the error propagates with
the dictionary untouched (the chained assignment never runs).  The third
component counts invocations of the wrapped computation. -/
def cachedproperty.get {V E : Type} (self : cachedproperty V E)
    (obj : Option (Dict V)) : GetResult V E × Option (Dict V) × Nat :=
  match obj with
  | none => (GetResult.descriptor self, none, 0)
  | some d =>
    match self.func.run d with
    | Except.ok v => (GetResult.val v, some (Dict.set d self.func.name v), 1)
    | Except.error e => (GetResult.exn e, some d, 1)

/-- `self.__class__.__name__` for a `cachedproperty` instance. -/
def cachedproperty.className {V E : Type} (_self : cachedproperty V E) :
    String := "cachedproperty"

/-- Model of `cachedproperty.__repr__` (cache.py lines 47-49):
the f-string `<{self.__class__.__name__} {self.func}>`. -/
def cachedproperty.reprS {V E : Type} (self : cachedproperty V E) : String :=
  "<" ++ self.className ++ " " ++ self.func.reprS ++ ">"

/-- CPython attribute read `instance.a` where the class of `instance` binds
the non-data descriptor `p` under the name `a`: the instance dictionary is
checked first; on a hit its value is returned with no descriptor involvement,
and on a miss `p.__get__(instance, type)` runs.  Returns the result, the
instance's new state, and the number of computation invocations. -/
def readAttr {V E : Type} (p : cachedproperty V E) (a : String)
    (d : Dict V) : GetResult V E × Dict V × Nat :=
  match Dict.find d a with
  | some v => (GetResult.val v, d, 0)
  | none =>
    match cachedproperty.get p (some d) with
    | (r, some d2, n) => (r, d2, n)
    | (r, none, n) => (r, d, n)

/-- Reading back the attribute just written returns the written value. -/
theorem Dict.find_set_self {V : Type} (d : Dict V) (a : String) (v : V) :
    Dict.find (Dict.set d a v) a = some v := by
  induction d with
  | nil => simp [Dict.set, Dict.find]
  | cons hd tl ih =>
    obtain ⟨k, w⟩ := hd
    by_cases h : k = a
    · simp [Dict.set, Dict.find, h]
    · simp [Dict.set, Dict.find, h, ih]

/-- Writing one attribute leaves every other attribute's binding alone. -/
theorem Dict.find_set_ne {V : Type} (d : Dict V) (a k : String) (v : V)
    (h : k ≠ a) : Dict.find (Dict.set d a v) k = Dict.find d k := by
  induction d with
  | nil => simp [Dict.set, Dict.find, Ne.symm h]
  | cons hd tl ih =>
    obtain ⟨k0, w⟩ := hd
    by_cases h0 : k0 = a
    · subst h0
      simp [Dict.set, Dict.find, Ne.symm h]
    · simp [Dict.set, Dict.find, h0, ih]

/-- After deleting an attribute its binding is gone. -/
theorem Dict.find_remove_self {V : Type} (d : Dict V) (a : String) :
    Dict.find (Dict.remove d a) a = none := by
  induction d with
  | nil => simp [Dict.remove, Dict.find]
  | cons hd tl ih =>
    obtain ⟨k, w⟩ := hd
    by_cases h : k = a
    · simp [Dict.remove, h, ih]
    · simp [Dict.remove, Dict.find, h, ih]

/-- String append is associative (on the underlying character lists). -/
theorem strAppendAssoc (a b c : String) : a ++ b ++ c = a ++ (b ++ c) := by
  cases a with | mk la =>
  cases b with | mk lb =>
  cases c with | mk lc =>
  show String.mk (la ++ lb ++ lc) = String.mk (la ++ (lb ++ lc))
  rw [List.append_assoc]

/-- The length of an appended string is the sum of the lengths. -/
theorem strLengthAppend (a b : String) :
    (a ++ b).length = a.length + b.length := by
  cases a with | mk la =>
  cases b with | mk lb =>
  show (la ++ lb).length = la.length + lb.length
  exact List.length_append la lb

/-- A concrete computation used to exercise the theorems: declared name
`size`, constant result `7`. -/
def sizeComp : Computation Nat String :=
  { name := "size"
    doc := some "Return the size."
    reprS := "<function size at 0x0>"
    run := fun _ => Except.ok 7 }

/-- The descriptor `cachedproperty(sizeComp)` with `doc` omitted. -/
def sizeProp : cachedproperty Nat String :=
  cachedproperty.init sizeComp none

/-- A second descriptor over the same computation, built with an explicit
`doc` string. -/
def sizeProp2 : cachedproperty Nat String :=
  cachedproperty.init sizeComp (some "alternative text")

/-- A concrete computation whose body always fails. -/
def failComp : Computation Nat String :=
  { name := "size"
    doc := none
    reprS := "<function size at 0x1>"
    run := fun _ => Except.error "boom" }

/-- The descriptor wrapping the failing computation. -/
def failProp : cachedproperty Nat String :=
  cachedproperty.init failComp none

/-- Claim C1: once an object's instance dictionary contains an entry for the
attribute, every read returns exactly that stored value with zero
computation invocations; and starting from a cache miss, two successive
reads perform exactly one invocation in total and both return the same
value `v`. -/
theorem cachedproperty_single_evaluation {V E : Type}
    (p : cachedproperty V E) (d d0 : Dict V) (v w : V) (a : String)
    (hhit : Dict.find d0 a = some w)
    (hmiss : Dict.find d p.func.name = none)
    (hrun : p.func.run d = Except.ok v) :
    readAttr p a d0 = (GetResult.val w, d0, 0) ∧
    readAttr p p.func.name d =
      (GetResult.val v, Dict.set d p.func.name v, 1) ∧
    readAttr p p.func.name (Dict.set d p.func.name v) =
      (GetResult.val v, Dict.set d p.func.name v, 0) := by
  refine ⟨?_, ?_, ?_⟩
  · simp [readAttr, hhit]
  · simp [readAttr, hmiss, cachedproperty.get, hrun]
  · simp [readAttr, Dict.find_set_self]

/-- Witness for C1 at a concrete descriptor and states: a read on a
populated dictionary is served from it, and a first read from the empty
dictionary computes once, caches, and the second read computes zero
times. -/
theorem cachedproperty_single_evaluation_witness :
    readAttr sizeProp "size" [("size", 5)] =
      (GetResult.val 5, [("size", 5)], 0) ∧
    readAttr sizeProp "size" [] = (GetResult.val 7, Dict.set [] "size" 7, 1) ∧
    readAttr sizeProp "size" (Dict.set [] "size" 7) =
      (GetResult.val 7, Dict.set [] "size" 7, 0) :=
  cachedproperty_single_evaluation sizeProp [] [("size", 5)] 7 5 "size"
    rfl rfl rfl

/-- Claim C2: a read that reaches `__get__` with an instance bound invokes
the computation exactly once on that instance, stores the result under
`func.__name__` (overwriting any prior entry, as the second conjunct
records), and returns that same result. -/
theorem cachedproperty_get_stores_and_returns {V E : Type}
    (p : cachedproperty V E) (d : Dict V) (v : V)
    (hrun : p.func.run d = Except.ok v) :
    cachedproperty.get p (some d) =
      (GetResult.val v, some (Dict.set d p.func.name v), 1) ∧
    Dict.find (Dict.set d p.func.name v) p.func.name = some v :=
  ⟨by simp [cachedproperty.get, hrun], Dict.find_set_self _ _ _⟩

/-- Witness for C2: the getter run on a dictionary that already holds a
stale entry `("size", 5)` computes `7`, overwrites the entry and returns
`7`. -/
theorem cachedproperty_get_stores_and_returns_witness :
    cachedproperty.get sizeProp (some [("size", 5)]) =
      (GetResult.val 7, some (Dict.set [("size", 5)] "size" 7), 1) ∧
    Dict.find (Dict.set [("size", 5)] "size" 7) "size" = some 7 :=
  cachedproperty_get_stores_and_returns sizeProp [("size", 5)] 7 rfl

/-- Claim C3: `__get__` with no instance bound (`obj is None`) returns the
wrapper itself, performs zero computation invocations, touches no instance
storage, and never fails. -/
theorem cachedproperty_get_type_level {V E : Type} (p : cachedproperty V E) :
    cachedproperty.get p none = (GetResult.descriptor p, none, 0) := rfl

/-- Claim C4: when the computation fails, `__get__` propagates exactly that
error, leaves the instance dictionary unchanged, and writes no cache
entry (the computation was still invoked once). -/
theorem cachedproperty_get_error_propagates {V E : Type}
    (p : cachedproperty V E) (d : Dict V) (e : E)
    (hrun : p.func.run d = Except.error e) :
    cachedproperty.get p (some d) = (GetResult.exn e, some d, 1) := by
  simp [cachedproperty.get, hrun]

/-- Witness for C4: the failing computation's error string comes back
verbatim and the dictionary `[("other", 3)]` is returned unchanged. -/
theorem cachedproperty_get_error_propagates_witness :
    cachedproperty.get failProp (some [("other", 3)]) =
      (GetResult.exn "boom", some [("other", 3)], 1) :=
  cachedproperty_get_error_propagates failProp [("other", 3)] "boom" rfl

/-- Claim C5: an attribute read mutates at most the one entry keyed by the
computation's declared name: every other key's binding in the instance
dictionary is unchanged.  Cross-object isolation is structural in this
model: `readAttr` receives and returns only the one instance's
dictionary, so no other object's storage can be involved. -/
theorem cachedproperty_read_frame {V E : Type}
    (p : cachedproperty V E) (a : String) (d : Dict V) (k : String)
    (hk : k ≠ p.func.name) :
    Dict.find (readAttr p a d).2.1 k = Dict.find d k := by
  unfold readAttr
  cases hfa : Dict.find d a with
  | none =>
    unfold cachedproperty.get
    cases hr : p.func.run d with
    | ok v => simp [hr, Dict.find_set_ne _ _ _ _ hk]
    | error e => simp [hr]
  | some v => simp

/-- Witness for C5: a first read on `[("other", 3)]` caches under `size`
but leaves the binding of `other` untouched. -/
theorem cachedproperty_read_frame_witness :
    Dict.find (readAttr sizeProp "size" [("other", 3)]).2.1 "other" =
      Dict.find [("other", 3)] "other" :=
  cachedproperty_read_frame sizeProp "size" [("other", 3)] "other"
    (by decide)

/-- Claim C6: after the cached entry is removed the state is Unset again
(first conjunct), and the next read invokes the computation once more and
repopulates the cache with the newly computed value. -/
theorem cachedproperty_recompute_after_clear {V E : Type}
    (p : cachedproperty V E) (d : Dict V) (v : V)
    (hrun : p.func.run (Dict.remove d p.func.name) = Except.ok v) :
    Dict.find (Dict.remove d p.func.name) p.func.name = none ∧
    readAttr p p.func.name (Dict.remove d p.func.name) =
      (GetResult.val v, Dict.set (Dict.remove d p.func.name) p.func.name v,
        1) ∧
    Dict.find (Dict.set (Dict.remove d p.func.name) p.func.name v)
      p.func.name = some v := by
  refine ⟨Dict.find_remove_self _ _, ?_, Dict.find_set_self _ _ _⟩
  simp [readAttr, Dict.find_remove_self, cachedproperty.get, hrun]

/-- Witness for C6: the cached value `5` is cleared; the next read computes
`7` (one invocation) and the cache now holds `7`, a value different from
the cleared one. -/
theorem cachedproperty_recompute_after_clear_witness :
    Dict.find (Dict.remove [("size", 5)] "size") "size" = none ∧
    readAttr sizeProp "size" (Dict.remove [("size", 5)] "size") =
      (GetResult.val 7, Dict.set (Dict.remove [("size", 5)] "size") "size" 7,
        1) ∧
    Dict.find (Dict.set (Dict.remove [("size", 5)] "size") "size" 7) "size" =
      some 7 :=
  cachedproperty_recompute_after_clear sizeProp [("size", 5)] 7 rfl

/-- Claim C7: with `doc` omitted the wrapper's `__doc__` equals the
computation's own `__doc__`; with an explicit string supplied, the
wrapper's `__doc__` is that string. -/
theorem cachedproperty_init_doc {V E : Type} (f : Computation V E)
    (s : String) :
    (cachedproperty.init f none).doc = f.doc ∧
    (cachedproperty.init f (some s)).doc = some s :=
  ⟨rfl, rfl⟩

/-- Claim C8: the diagnostic string contains the wrapper's type name and
the wrapped computation's representation (the two append decompositions),
is non-empty, and is determined by the computation's representation alone
(two wrappers over equally printed computations print equally). -/
theorem cachedproperty_reprS_spec {V E : Type} (p q : cachedproperty V E)
    (hq : q.func.reprS = p.func.reprS) :
    cachedproperty.reprS p =
      "<" ++ cachedproperty.className p ++ (" " ++ p.func.reprS ++ ">") ∧
    cachedproperty.reprS p =
      ("<" ++ cachedproperty.className p ++ " ") ++ p.func.reprS ++ ">" ∧
    0 < (cachedproperty.reprS p).length ∧
    cachedproperty.reprS q = cachedproperty.reprS p := by
  refine ⟨rfl, ?_, ?_, ?_⟩
  · simp [cachedproperty.reprS, strAppendAssoc]
  · have h1 : cachedproperty.reprS p =
        "<" ++ (cachedproperty.className p ++ (" " ++ (p.func.reprS ++ ">"))) :=
      rfl
    have h2 : ("<" : String).length = 1 := rfl
    rw [h1, strLengthAppend]
    omega
  · simp [cachedproperty.reprS, cachedproperty.className, hq]

/-- Witness for C8 at two concrete wrappers over the same computation. -/
theorem cachedproperty_reprS_spec_witness :
    cachedproperty.reprS sizeProp =
      "<" ++ cachedproperty.className sizeProp ++
        (" " ++ sizeProp.func.reprS ++ ">") ∧
    cachedproperty.reprS sizeProp =
      ("<" ++ cachedproperty.className sizeProp ++ " ") ++
        sizeProp.func.reprS ++ ">" ∧
    0 < (cachedproperty.reprS sizeProp).length ∧
    cachedproperty.reprS sizeProp2 = cachedproperty.reprS sizeProp :=
  cachedproperty_reprS_spec sizeProp sizeProp2 rfl

/-- Claim C9: calling the wrapper itself, with any positional and keyword
arguments, returns `None` and performs zero computation invocations. -/
theorem cachedproperty_call_noop {V E : Type} (p : cachedproperty V E)
    (args : List V) (kwargs : List (String × V)) :
    cachedproperty.call p args kwargs = (none, 0) :=
  rfl

/-- Claim C10: after construction, `func` and `__wrapped__` both hold the
computation passed in and are equal to each other, and the descriptor that
type-level access hands back is the very same wrapper, fields intact.
Immutability under the remaining operations is structural: no model
operation produces a modified wrapper. -/
theorem cachedproperty_wrapped_eq_func {V E : Type} (f : Computation V E)
    (doc : Option String) :
    (cachedproperty.init f doc).func = f ∧
    (cachedproperty.init f doc).wrapped = f ∧
    (cachedproperty.init f doc).wrapped = (cachedproperty.init f doc).func ∧
    cachedproperty.get (cachedproperty.init f doc) none =
      (GetResult.descriptor (cachedproperty.init f doc), none, 0) :=
  ⟨rfl, rfl, rfl, rfl⟩

end Praw
